import Mathlib

/-
  Shallow embedding of src/knn_dtw/main.py.

  The script is a straight-line driver: it sets a matplotlib style,
  probes whether IPython.display is importable (lines 12-16), builds a
  time grid and two sine signals (lines 23-25), constructs a KnnDtw
  object from the star-imported external module `classes` (line 27),
  calls its _dtw_distance method once (line 29), and renders one figure
  (lines 31-37).

  Numeric values are modelled over the rationals; the numpy sine is an
  abstract parameter `sin : Q -> Q` shared by every array that uses it,
  since the library function is one fixed function.  Everything the
  script does to the outside world is recorded in an ordered effect
  trace, and the pieces the visible source does not contain (the
  external _dtw_distance implementation, whether the star import binds
  the name knn_dtw, argv, the IPython import outcome) are fields of an
  environment record.
-/

namespace DtwMain

/-- Result of the attempted import of clear_output from IPython.display
at lines 12-16 of main.py. -/
inductive ImportOutcome
  | success
  | importError
deriving DecidableEq

/-- Lines 12-16 of main.py: have_ipython is set to True when the import
succeeds and to False when ImportError is raised. -/
def have_ipython : ImportOutcome → Bool
  | .success => true
  | .importError => false

/-- numpy.linspace with the default endpoint=True: num samples from
start to stop inclusive, sample i at start + (stop - start) * i / (num - 1). -/
def linspace (start stop : ℚ) (num : Nat) : List ℚ :=
  (List.range num).map (fun (i : Nat) => start + (stop - start) * (i : ℚ) / ((num : ℚ) - 1))

/-- Line 23 of main.py: time = np.linspace(0, 20, 1000). -/
def time : List ℚ := linspace 0 20 1000

/-- Line 24 of main.py: amplitude_a = 5*np.sin(time), elementwise over
the time grid. -/
def amplitude_a (sin : ℚ → ℚ) : List ℚ := time.map (fun t => 5 * sin t)

/-- Line 25 of main.py: amplitude_b = 3*np.sin(time + 1), elementwise
over the time grid. -/
def amplitude_b (sin : ℚ → ℚ) : List ℚ := time.map (fun t => 3 * sin (t + 1))

/-- The formatting applied by the Python expression
"DTW distance between A and B is %.2f" % distance: the value rounded to
two decimal places and printed with exactly two fractional digits. -/
def format2f (q : ℚ) : String :=
  let c : ℤ := round (q * 100)
  let sign := if c < 0 then "-" else ""
  let m := c.natAbs
  let fr := m % 100
  let frs := if fr < 10 then "0" ++ toString fr else toString fr
  sign ++ toString (m / 100) ++ "." ++ frs

/-- One observable action of the script on the world outside its local
variables.  The script only ever emits matplotlib calls and the single
external distance call; the readFile, writeFile and netConnect
constructors exist so that the absence of file and network activity is a
statement about the trace, not about the vocabulary. -/
inductive Effect
  | styleUse (s : String)
  | callDistance (a b : List ℚ)
  | figureCreate (w h : ℚ)
  | plotLine (xs ys : List ℚ) (lab : String)
  | setTitle (s : String)
  | setYlabel (s : String)
  | setXlabel (s : String)
  | legend
  | readFile (path : String)
  | writeFile (path : String)
  | netConnect (host : String)
deriving DecidableEq

/-- True exactly on the external distance call of line 29. -/
def Effect.isCallDistance : Effect → Bool
  | .callDistance _ _ => true
  | _ => false

/-- True exactly on plt.figure, the call of line 31. -/
def Effect.isFigureCreate : Effect → Bool
  | .figureCreate _ _ => true
  | _ => false

/-- True on the figure-producing matplotlib calls of lines 31-37:
plt.figure, plt.plot, plt.title, plt.ylabel, plt.xlabel, plt.legend. -/
def Effect.isRender : Effect → Bool
  | .figureCreate _ _ => true
  | .plotLine _ _ _ => true
  | .setTitle _ => true
  | .setYlabel _ => true
  | .setXlabel _ => true
  | .legend => true
  | _ => false

/-- True on file reads, file writes and network connections. -/
def Effect.isFileOrNet : Effect → Bool
  | .readFile _ => true
  | .writeFile _ => true
  | .netConnect _ => true
  | _ => false

/-- True on every matplotlib call, the style configuration of line 10
included. -/
def Effect.isMatplotlib : Effect → Bool
  | .styleUse _ => true
  | .figureCreate _ _ => true
  | .plotLine _ _ _ => true
  | .setTitle _ => true
  | .setYlabel _ => true
  | .setXlabel _ => true
  | .legend => true
  | _ => false

/-- The module-level variables alive at the end of a successful run,
together with the ordered trace of observable effects. -/
structure FinalState where
  time : List ℚ
  amplitude_a : List ℚ
  amplitude_b : List ℚ
  distance : ℚ
  effects : List Effect

/-- How a run of the script ends: a NameError raised at line 27 when the
star import bound no name knn_dtw, or normal completion. -/
inductive ScriptOutcome
  | nameError (effects : List Effect)
  | completed (st : FinalState)

/-- Everything outside the visible source that a run can observe: the
IPython import outcome, whether `from classes import *` binds the name
knn_dtw, the external _dtw_distance implementation, and the process
argv (which the script never reads). -/
structure Env where
  importClear : ImportOutcome
  knnDtwBound : Bool
  dtwDistance : List ℚ → List ℚ → ℚ
  argv : List String

/-- The state a successful run ends in: lines 29-37 of main.py.  The
distance is the unmodified return value of the external _dtw_distance
call on the two fully built amplitude arrays, and the title embeds that
value through the %.2f formatting. -/
def finalStateOf (sin : ℚ → ℚ) (env : Env) : FinalState :=
  let a := amplitude_a sin
  let b := amplitude_b sin
  let d := env.dtwDistance a b
  { time := time
    amplitude_a := a
    amplitude_b := b
    distance := d
    effects := [
      .styleUse "bmh",
      .callDistance a b,
      .figureCreate 12 4,
      .plotLine time a "A",
      .plotLine time b "B",
      .setTitle ("DTW distance between A and B is " ++ format2f d),
      .setYlabel "Amplitude",
      .setXlabel "Time",
      .legend ] }

/-- A whole run of main.py.  have_ipython is computed from the import
outcome (lines 12-16) and then never read, so it is bound and discarded
exactly as in the source; the arrays of lines 23-25 are built before
line 27 executes; if the star import bound no name knn_dtw, line 27
raises NameError after only the style call of line 10 has happened. -/
def scriptRun (sin : ℚ → ℚ) (env : Env) : ScriptOutcome :=
  let _have_ipython := have_ipython env.importClear
  if env.knnDtwBound then
    ScriptOutcome.completed (finalStateOf sin env)
  else
    ScriptOutcome.nameError [.styleUse "bmh"]

/-- The effect trace of a run, whichever way it ended. -/
def ScriptOutcome.trace : ScriptOutcome → List Effect
  | .nameError l => l
  | .completed st => st.effects

/-! Helper lemmas about the sampled grid. -/

lemma linspace_getD (start stop : ℚ) (num i : Nat) (h : i < num) :
    (linspace start stop num).getD i 0 = start + (stop - start) * (i : ℚ) / ((num : ℚ) - 1) := by
  rw [linspace, List.getD_eq_getElem?_getD, List.getElem?_map, List.getElem?_range h]
  rfl

lemma linspace_length (start stop : ℚ) (num : Nat) :
    (linspace start stop num).length = num := by
  simp [linspace]

lemma time_length : time.length = 1000 := linspace_length 0 20 1000

lemma time_getD (i : Nat) (h : i < 1000) : time.getD i 0 = 20 * (i : ℚ) / 999 := by
  rw [time, linspace_getD 0 20 1000 i h]
  push_cast
  ring

lemma amplitude_a_getD (sin : ℚ → ℚ) (i : Nat) (h : i < 1000) :
    (amplitude_a sin).getD i 0 = 5 * sin (time.getD i 0) := by
  have hlen : i < time.length := by rw [time_length]; exact h
  rw [amplitude_a, List.getD_eq_getElem?_getD, List.getElem?_map,
    List.getElem?_eq_getElem hlen, List.getD_eq_getElem?_getD,
    List.getElem?_eq_getElem hlen]
  rfl

lemma amplitude_b_getD (sin : ℚ → ℚ) (i : Nat) (h : i < 1000) :
    (amplitude_b sin).getD i 0 = 3 * sin (time.getD i 0 + 1) := by
  have hlen : i < time.length := by rw [time_length]; exact h
  rw [amplitude_b, List.getD_eq_getElem?_getD, List.getElem?_map,
    List.getElem?_eq_getElem hlen, List.getD_eq_getElem?_getD,
    List.getElem?_eq_getElem hlen]
  rfl

/-! The claim theorems. -/

/-- Claim C1: on every successful run the title of the figure is the
fixed prefix followed by the %.2f rendering of exactly the value the
single _dtw_distance call returned on (amplitude_a, amplitude_b); the
driver stores that value in distance unmodified, and the distance call
happens exactly once. -/
theorem C1_title_displays_dtw_distance (sin : ℚ → ℚ) (ic : ImportOutcome)
    (f : List ℚ → List ℚ → ℚ) (argv : List String) :
    ∃ st, scriptRun sin ⟨ic, true, f, argv⟩ = ScriptOutcome.completed st ∧
      st.distance = f (amplitude_a sin) (amplitude_b sin) ∧
      Effect.setTitle ("DTW distance between A and B is "
          ++ format2f (f (amplitude_a sin) (amplitude_b sin))) ∈ st.effects ∧
      st.effects.countP Effect.isCallDistance = 1 := by
  refine ⟨finalStateOf sin ⟨ic, true, f, argv⟩, rfl, rfl, ?_, rfl⟩
  simp [finalStateOf]

/-- Claim C2: the script builds exactly two sine signals on a shared
grid: time is 1000 samples, evenly spaced with constant step 20/999,
spanning 0 to 20 inclusive, sample i being 20*i/999; amplitude_a is
5*sin(time) and amplitude_b is 3*sin(time + 1) elementwise, both of
length 1000. -/
theorem C2_two_sine_signals :
    time.length = 1000 ∧
    (∀ sin : ℚ → ℚ, (amplitude_a sin).length = 1000 ∧ (amplitude_b sin).length = 1000) ∧
    (∀ i : Nat, i < 1000 → time.getD i 0 = 20 * (i : ℚ) / 999) ∧
    time.getD 0 0 = 0 ∧
    time.getD 999 0 = 20 ∧
    (∀ i : Nat, i + 1 < 1000 → time.getD (i + 1) 0 - time.getD i 0 = 20 / 999) ∧
    (∀ (sin : ℚ → ℚ) (i : Nat), i < 1000 →
      (amplitude_a sin).getD i 0 = 5 * sin (time.getD i 0) ∧
      (amplitude_b sin).getD i 0 = 3 * sin (time.getD i 0 + 1)) := by
  refine ⟨time_length, ?_, ?_, ?_, ?_, ?_, ?_⟩
  · intro sin
    constructor
    · rw [amplitude_a, List.length_map, time_length]
    · rw [amplitude_b, List.length_map, time_length]
  · exact time_getD
  · rw [time_getD 0 (by norm_num)]; norm_num
  · rw [time_getD 999 (by norm_num)]; norm_num
  · intro i h
    rw [time_getD (i + 1) h, time_getD i (by omega)]
    push_cast
    ring
  · intro sin i h
    exact ⟨amplitude_a_getD sin i h, amplitude_b_getD sin i h⟩

/-- Witness for C2 at concrete inputs: index 999 for the grid formula,
index 0 for the spacing, and the identity function for the sine
parameter. -/
theorem C2_two_sine_signals_witness :
    (999 : Nat) < 1000 ∧ time.getD 999 0 = 20 * ((999 : Nat) : ℚ) / 999 ∧
    (0 : Nat) + 1 < 1000 ∧ time.getD (0 + 1) 0 - time.getD 0 0 = 20 / 999 ∧
    (0 : Nat) < 1000 ∧ (amplitude_a (fun q => q)).getD 0 0 = 5 * time.getD 0 0 :=
  ⟨by norm_num, C2_two_sine_signals.2.2.1 999 (by norm_num),
   by norm_num, C2_two_sine_signals.2.2.2.2.2.1 0 (by norm_num),
   by norm_num, (C2_two_sine_signals.2.2.2.2.2.2 (fun q => q) 0 (by norm_num)).1⟩

/-- Claim C3: a successful run is one linear sequence: the distance call
receives the two fully built amplitude arrays, it happens exactly once,
no figure-producing call precedes it and every effect after it is
figure-producing, exactly one figure is created, and the figure holds
the plot of time against amplitude_a labelled A, the plot of time
against amplitude_b labelled B, a legend, ylabel Amplitude and xlabel
Time. -/
theorem C3_linear_sequence (sin : ℚ → ℚ) (ic : ImportOutcome)
    (f : List ℚ → List ℚ → ℚ) (argv : List String) :
    ∃ st, scriptRun sin ⟨ic, true, f, argv⟩ = ScriptOutcome.completed st ∧
      st.effects.countP Effect.isCallDistance = 1 ∧
      st.effects.countP Effect.isFigureCreate = 1 ∧
      (∃ pre post,
        st.effects = pre ++ Effect.callDistance (amplitude_a sin) (amplitude_b sin) :: post ∧
        pre.all (fun e => !e.isRender) = true ∧
        post.all Effect.isRender = true) ∧
      Effect.plotLine time (amplitude_a sin) "A" ∈ st.effects ∧
      Effect.plotLine time (amplitude_b sin) "B" ∈ st.effects ∧
      Effect.setTitle ("DTW distance between A and B is "
          ++ format2f (f (amplitude_a sin) (amplitude_b sin))) ∈ st.effects ∧
      Effect.setYlabel "Amplitude" ∈ st.effects ∧
      Effect.setXlabel "Time" ∈ st.effects ∧
      Effect.legend ∈ st.effects := by
  refine ⟨finalStateOf sin ⟨ic, true, f, argv⟩, rfl, rfl, rfl, ?_, ?_, ?_, ?_, ?_, ?_, ?_⟩
  · exact ⟨[Effect.styleUse "bmh"],
      [Effect.figureCreate 12 4,
       Effect.plotLine time (amplitude_a sin) "A",
       Effect.plotLine time (amplitude_b sin) "B",
       Effect.setTitle ("DTW distance between A and B is "
         ++ format2f (f (amplitude_a sin) (amplitude_b sin))),
       Effect.setYlabel "Amplitude",
       Effect.setXlabel "Time",
       Effect.legend], rfl, rfl, rfl⟩
  all_goals simp [finalStateOf]

/-- Claim C4: the only conditional logic is the optional-dependency
check: have_ipython is True when the import of clear_output succeeds and
False exactly when ImportError is raised; there is no other validation,
retry or recovery: whenever the external name knn_dtw is bound, the run
completes normally, whatever the import outcome and the external
implementation. -/
theorem C4_only_conditional_is_import_check :
    have_ipython ImportOutcome.success = true ∧
    have_ipython ImportOutcome.importError = false ∧
    (∀ (sin : ℚ → ℚ) (ic : ImportOutcome) (f : List ℚ → List ℚ → ℚ) (argv : List String),
      scriptRun sin ⟨ic, true, f, argv⟩
        = ScriptOutcome.completed (finalStateOf sin ⟨ic, true, f, argv⟩)) :=
  ⟨rfl, rfl, fun _ _ _ _ => rfl⟩

/-- Claim C5: executing the script performs no I/O beyond rendering at
most one figure: in every run, successful or not, the trace holds no
file read, no file write and no network connection, and at most one
figure is created. -/
theorem C5_no_io_beyond_figure (sin : ℚ → ℚ) (env : Env) :
    (scriptRun sin env).trace.countP Effect.isFileOrNet = 0 ∧
    (scriptRun sin env).trace.all (fun e => !e.isFileOrNet) = true ∧
    (scriptRun sin env).trace.countP Effect.isFigureCreate ≤ 1 := by
  obtain ⟨ic, b, f, argv⟩ := env
  cases b
  · exact ⟨rfl, rfl, Nat.zero_le 1⟩
  · exact ⟨rfl, rfl, Nat.le_refl 1⟩

/-- Claim C6: the distance computation is entirely the external
implementation reached through the star import: for every external
implementation f, the distance the script uses is exactly the return
value of f on (amplitude_a, amplitude_b); and any two implementations
that agree on that one input pair give runs with identical outcomes, so
the visible source contributes nothing to the computed value. -/
theorem C6_distance_entirely_external (sin : ℚ → ℚ) (ic : ImportOutcome)
    (f g : List ℚ → List ℚ → ℚ) (argv : List String) :
    (∃ st, scriptRun sin ⟨ic, true, f, argv⟩ = ScriptOutcome.completed st ∧
      st.distance = f (amplitude_a sin) (amplitude_b sin)) ∧
    (f (amplitude_a sin) (amplitude_b sin) = g (amplitude_a sin) (amplitude_b sin) →
      scriptRun sin ⟨ic, true, f, argv⟩ = scriptRun sin ⟨ic, true, g, argv⟩) := by
  refine ⟨⟨finalStateOf sin ⟨ic, true, f, argv⟩, rfl, rfl⟩, fun h => ?_⟩
  simp only [scriptRun, finalStateOf, ScriptOutcome.completed.injEq, if_true]
  rw [h]

/-- Witness for C6 with the zero implementation on both sides. -/
theorem C6_distance_entirely_external_witness :
    (fun (_ _ : List ℚ) => (0 : ℚ)) (amplitude_a (fun q => q)) (amplitude_b (fun q => q))
        = (fun (_ _ : List ℚ) => (0 : ℚ)) (amplitude_a (fun q => q)) (amplitude_b (fun q => q)) ∧
    scriptRun (fun q => q) ⟨ImportOutcome.success, true, fun _ _ => 0, []⟩
      = scriptRun (fun q => q) ⟨ImportOutcome.success, true, fun _ _ => 0, []⟩ :=
  ⟨rfl, (C6_distance_entirely_external (fun q => q) ImportOutcome.success
      (fun _ _ => 0) (fun _ _ => 0) []).2 rfl⟩

/-- Claim C7: the only external interfaces are matplotlib calls and the
one external distance call: every effect of every run is one of those,
and the run never reads argv, so two runs differing only in argv have
identical outcomes. -/
theorem C7_only_plotting_and_distance_interfaces (sin : ℚ → ℚ) (env : Env)
    (ic : ImportOutcome) (b : Bool) (f : List ℚ → List ℚ → ℚ) (a1 a2 : List String) :
    (scriptRun sin env).trace.all (fun e => e.isMatplotlib || e.isCallDistance) = true ∧
    scriptRun sin ⟨ic, b, f, a1⟩ = scriptRun sin ⟨ic, b, f, a2⟩ := by
  obtain ⟨ic0, b0, f0, argv0⟩ := env
  cases b0
  · exact ⟨rfl, rfl⟩
  · exact ⟨rfl, rfl⟩

/-- Claim C8: when the star import binds no name knn_dtw, line 27 raises
NameError: the run ends in NameError with only the style call in its
trace, so no distance call and no figure creation has happened. -/
theorem C8_name_error_before_distance (sin : ℚ → ℚ) (ic : ImportOutcome)
    (f : List ℚ → List ℚ → ℚ) (argv : List String) :
    scriptRun sin ⟨ic, false, f, argv⟩
      = ScriptOutcome.nameError [Effect.styleUse "bmh"] ∧
    (scriptRun sin ⟨ic, false, f, argv⟩).trace.countP Effect.isCallDistance = 0 ∧
    (scriptRun sin ⟨ic, false, f, argv⟩).trace.countP Effect.isFigureCreate = 0 :=
  ⟨rfl, rfl, rfl⟩

/-- Claim C9: the environment-detection result influences nothing: two
runs that differ only in whether IPython.display is importable have
identical outcomes, arrays, distance call and figure included. -/
theorem C9_have_ipython_never_read (sin : ℚ → ℚ) (i1 i2 : ImportOutcome)
    (b : Bool) (f : List ℚ → List ℚ → ℚ) (argv : List String) :
    scriptRun sin ⟨i1, b, f, argv⟩ = scriptRun sin ⟨i2, b, f, argv⟩ := rfl

set_option maxRecDepth 8000 in
/-- Claim C10: the script is deterministic: with the external
implementation fixed, any two runs have identical outcomes, the same
time and amplitude arrays, and the same %.2f distance value in the
title, whatever the import outcome or argv. -/
theorem C10_deterministic (sin : ℚ → ℚ) (f : List ℚ → List ℚ → ℚ)
    (i1 i2 : ImportOutcome) (a1 a2 : List String) :
    scriptRun sin ⟨i1, true, f, a1⟩ = scriptRun sin ⟨i2, true, f, a2⟩ ∧
    ∃ st, scriptRun sin ⟨i1, true, f, a1⟩ = ScriptOutcome.completed st ∧
      st.time = time ∧
      st.amplitude_a = amplitude_a sin ∧
      st.amplitude_b = amplitude_b sin ∧
      Effect.setTitle ("DTW distance between A and B is "
        ++ format2f (f (amplitude_a sin) (amplitude_b sin))) ∈ st.effects := by
  refine ⟨rfl, finalStateOf sin ⟨i1, true, f, a1⟩, rfl, rfl, rfl, rfl, ?_⟩
  simp [finalStateOf]

end DtwMain
